import Mathlib

/-!
Verification of the gemini-cli-mcp adapter (src/main.rs).

The adapter exposes two MCP tools, `gemini_prompt` and `gemini_config`.
`gemini_prompt` builds an argument list for the external `gemini` binary,
spawns it, and maps the subprocess result to a text response or an error.
`gemini_config` returns fixed guidance text and never spawns anything.

The embedding is a shallow one: the subprocess boundary is a function
`world : Invocation → SpawnOutcome` giving, for each invocation the adapter
builds, what the operating system and the child process do.  Each handler
returns its MCP-level result together with the list of subprocess
invocations it attempted, so that frame properties (which processes were
spawned, with which arguments and environment overrides) are stated
directly.
-/

namespace GeminiCliMcp

/-- Unicode White_Space predicate: the whitespace notion of Rust
`char::is_whitespace`, which `str::trim` uses to strip leading and trailing
whitespace in `run_gemini_command`. -/
def rustIsWhitespace (c : Char) : Bool :=
  c == '\t' || c == '\n' || c == '\u000B' || c == '\u000C' || c == '\r' ||
  c == ' ' || c == '\u0085' || c == '\u00A0' || c == '\u1680' ||
  (0x2000 ≤ c.toNat && c.toNat ≤ 0x200A) ||
  c == '\u2028' || c == '\u2029' || c == '\u202F' || c == '\u205F' ||
  c == '\u3000'

/-- Rust `str::trim`: strips leading and trailing whitespace characters. -/
def rustTrim (s : String) : String :=
  ⟨((s.data.dropWhile rustIsWhitespace).reverse.dropWhile rustIsWhitespace).reverse⟩

/-- Whether a character list begins with the pattern `pat`. -/
def charsLeadWith : List Char → List Char → Bool
  | _, [] => true
  | [], _ :: _ => false
  | c :: cs, p :: ps => c == p && charsLeadWith cs ps

/-- Whether `pat` occurs as a contiguous run inside the second list. -/
def charsMention (pat : List Char) : List Char → Bool
  | [] => charsLeadWith [] pat
  | c :: rest => charsLeadWith (c :: rest) pat || charsMention pat rest

/-- Whether `pat` occurs as a substring of `hay`. -/
def strMentions (hay pat : String) : Bool :=
  charsMention pat.data hay.data

/-- Arguments of the `gemini_prompt` tool (`struct GeminiPromptArgs`).
`max_tokens` is a `u32` in the source and `temperature` an `f32`; both are
bound to unused `_`-names by the handler. -/
structure GeminiPromptArgs where
  prompt : String
  model : Option String
  max_tokens : Option Nat
  temperature : Option Float

/-- Arguments of the `gemini_config` tool (`struct GeminiConfigArgs`). -/
structure GeminiConfigArgs where
  api_key : Option String

/-- Captured result of a finished subprocess: the exit code (`none` when the
process was terminated by a signal) and the captured stdout and stderr
streams.  `String::from_utf8_lossy` is modelled as the already-decoded
text. -/
structure Output where
  exitCode : Option Nat
  stdout : String
  stderr : String
deriving DecidableEq

/-- Rust `ExitStatus::success()`: the process exited normally with code 0. -/
def Output.statusSuccess (o : Output) : Bool :=
  o.exitCode == some 0

/-- One subprocess invocation built by the adapter: program name, argument
list, and the explicit environment overrides passed to the child via
`cmd.env`. -/
structure Invocation where
  program : String
  args : List String
  env : List (String × String)
deriving DecidableEq

/-- What the operating system and the child process do in response to one
invocation: the spawn fails (`spawn()` returns `Err`), waiting fails
(`wait_with_output()` returns `Err`), or the process runs to completion with
the given captured `Output`. -/
inductive SpawnOutcome where
  | spawned (output : Output)
  | spawnFailed (osError : String)
  | waitFailed (osError : String)
deriving DecidableEq

/-- The `anyhow` error produced by `run_gemini_command`: a spawn failure
(context "Failed to spawn gemini command" over the OS error), a wait failure
(context "Failed to wait for gemini command"), or `anyhow::bail!` on a
non-zero exit, carrying the trimmed stderr text. -/
inductive GeminiError where
  | spawnError (osError : String)
  | waitError (osError : String)
  | externalToolError (trimmedStderr : String)
deriving DecidableEq

/-- Display text of the `anyhow` error (`e.to_string()`), which prints the
outermost context message only. -/
def GeminiError.message : GeminiError → String
  | .spawnError _ => "Failed to spawn gemini command"
  | .waitError _ => "Failed to wait for gemini command"
  | .externalToolError trimmedStderr => "Gemini command failed: " ++ trimmedStderr

/-- The rmcp `McpError` (`ErrorData`): a JSON-RPC error code and message.
The optional data field is always `None` in this adapter and is omitted. -/
structure McpError where
  code : Int
  message : String
deriving DecidableEq

/-- `McpError::internal_error(msg, None)`: JSON-RPC internal error, code
-32603. -/
def McpError.internal_error (message : String) : McpError :=
  ⟨-32603, message⟩

/-- The environment overrides set on the child command: `run_gemini_command`
forwards `GOOGLE_CLOUD_PROJECT` from the adapter's own environment when
`std::env::var` returns `Ok`, and sets nothing else. -/
def envOverrides (env : String → Option String) : List (String × String) :=
  match env "GOOGLE_CLOUD_PROJECT" with
  | some project => [("GOOGLE_CLOUD_PROJECT", project)]
  | none => []

/-- `run_gemini_command`: builds the invocation of the `gemini` binary with
the given argument list and environment overrides, spawns it (`world` gives
the outcome), trims both captured streams, and maps a zero exit status to
`Ok` of the trimmed stdout and a non-zero one to an `externalToolError`
carrying the trimmed stderr.  The result is paired with the list of
subprocess invocations attempted. -/
def run_gemini_command (env : String → Option String)
    (world : Invocation → SpawnOutcome) (args : List String) :
    Except GeminiError String × List Invocation :=
  let inv : Invocation := ⟨"gemini", args, envOverrides env⟩
  let result : Except GeminiError String :=
    match world inv with
    | .spawnFailed osError => .error (.spawnError osError)
    | .waitFailed osError => .error (.waitError osError)
    | .spawned output =>
      let stdout := rustTrim output.stdout
      let stderr := rustTrim output.stderr
      if output.statusSuccess then .ok stdout
      else .error (.externalToolError stderr)
  (result, [inv])

/-- The `gemini_prompt` tool handler: pushes `"--prompt"` and the prompt,
then `"--model"` and the model when one is present (`max_tokens` and
`temperature` are accepted but unused), runs the command, and maps any error
to `McpError::internal_error` of its display text. -/
def gemini_prompt (env : String → Option String)
    (world : Invocation → SpawnOutcome) (a : GeminiPromptArgs) :
    Except McpError String × List Invocation :=
  let cmd_args : List String := []
  let cmd_args := cmd_args ++ ["--prompt", a.prompt]
  let cmd_args :=
    match a.model with
    | some model_str => cmd_args ++ ["--model", model_str]
    | none => cmd_args
  let r := run_gemini_command env world cmd_args
  (r.1.mapError (fun e => McpError.internal_error e.message), r.2)

/-- The `gemini_config` tool handler: never spawns a subprocess and never
fails; returns one fixed guidance string when `api_key` was supplied and
another when it was not. -/
def gemini_config (a : GeminiConfigArgs) :
    Except McpError String × List Invocation :=
  match a.api_key with
  | some _ =>
    (.ok "Note: Gemini API key should be set via GOOGLE_API_KEY environment variable", [])
  | none =>
    (.ok "Gemini CLI configuration:\n- API key: Set via GOOGLE_API_KEY environment variable\n- Model: Use --model flag (default: gemini-2.5-pro)", [])

/-- C1: a `gemini_prompt` call that supplies only the required prompt (model,
max_tokens and temperature all absent) builds exactly the argument list
`["--prompt", prompt]` for its single subprocess invocation, with no other
flags appended. -/
theorem prompt_only_builds_prompt_flag (env : String → Option String)
    (world : Invocation → SpawnOutcome) (p : String)
    (mt : Option Nat) (t : Option Float) :
    (gemini_prompt env world ⟨p, none, mt, t⟩).2.map Invocation.args
      = [["--prompt", p]] := rfl

/-- C2: a `gemini_prompt` call that supplies a model `x` builds exactly the
argument list `["--prompt", prompt, "--model", x]`: the model flags are
appended after the prompt flags and no other ordering is produced. -/
theorem model_flag_appended_after_prompt (env : String → Option String)
    (world : Invocation → SpawnOutcome) (p x : String)
    (mt : Option Nat) (t : Option Float) :
    (gemini_prompt env world ⟨p, some x, mt, t⟩).2.map Invocation.args
      = [["--prompt", p, "--model", x]] := rfl

/-- C3: whenever the spawned process exits with code 0, `run_gemini_command`
succeeds and returns the captured stdout with leading and trailing
whitespace stripped; in particular stdout `"  hello \n"` yields `"hello"`. -/
theorem exit_zero_returns_trimmed_stdout (env : String → Option String)
    (world : Invocation → SpawnOutcome) (args : List String) (out err : String)
    (h : world ⟨"gemini", args, envOverrides env⟩ = .spawned ⟨some 0, out, err⟩) :
    (run_gemini_command env world args).1 = .ok (rustTrim out) ∧
    rustTrim "  hello \n" = "hello" := by
  refine ⟨?_, by decide⟩
  simp [run_gemini_command, h, Output.statusSuccess]

/-- Witness for C3 at exit code 0 with stdout bytes `"  hello \n"`. -/
theorem exit_zero_returns_trimmed_stdout_witness :
    (run_gemini_command (fun _ => none)
        (fun _ => .spawned ⟨some 0, "  hello \n", ""⟩) ["--prompt", "p"]).1
      = .ok "hello" ∧ rustTrim "  hello \n" = "hello" :=
  exit_zero_returns_trimmed_stdout (fun _ => none)
    (fun _ => .spawned ⟨some 0, "  hello \n", ""⟩) ["--prompt", "p"]
    "  hello \n" "" rfl

/-- C4: whenever the spawned process exits with a non-zero code, the
`gemini_prompt` call fails with an internal error whose message contains the
trimmed captured stderr, and no result text (in particular none of the
captured stdout) is returned. -/
theorem nonzero_exit_fails_with_stderr (env : String → Option String)
    (a : GeminiPromptArgs) (out err : String) (c : Nat) (hc : c ≠ 0) :
    (gemini_prompt env (fun _ => .spawned ⟨some c, out, err⟩) a).1
      = .error (McpError.internal_error
          ("Gemini command failed: " ++ rustTrim err)) ∧
    (∃ pre suf, "Gemini command failed: " ++ rustTrim err
      = pre ++ rustTrim err ++ suf) ∧
    ∀ s, (gemini_prompt env (fun _ => .spawned ⟨some c, out, err⟩) a).1
      ≠ .ok s := by
  have hcc : Output.statusSuccess ⟨some c, out, err⟩ = false := by
    simp [Output.statusSuccess, hc]
  have h1 : (gemini_prompt env (fun _ => .spawned ⟨some c, out, err⟩) a).1
      = .error (McpError.internal_error
          ("Gemini command failed: " ++ rustTrim err)) := by
    simp [gemini_prompt, run_gemini_command, hcc, Except.mapError,
      GeminiError.message, McpError.internal_error]
  refine ⟨h1, ⟨"Gemini command failed: ", "", by simp⟩, fun s hs => ?_⟩
  rw [h1] at hs
  exact Except.noConfusion hs

/-- Witness for C4 at exit code 1 with stderr bytes `"bad prompt\n"`. -/
theorem nonzero_exit_fails_with_stderr_witness :
    (gemini_prompt (fun _ => none)
        (fun _ => .spawned ⟨some 1, "partial out", "bad prompt\n"⟩)
        ⟨"p", none, none, none⟩).1
      = .error (McpError.internal_error "Gemini command failed: bad prompt") :=
  (nonzero_exit_fails_with_stderr (fun _ => none) ⟨"p", none, none, none⟩
    "partial out" "bad prompt\n" 1 (by decide)).1

/-- C5: a `gemini_config` call with a supplied api_key returns the fixed text
directing the caller to the environment variable; the response is identical
for any two supplied key values, spawns no subprocess, and the spec's
example value "secret" does not occur in it. -/
theorem config_key_value_never_used (v w : String) :
    gemini_config ⟨some v⟩ = gemini_config ⟨some w⟩ ∧
    (gemini_config ⟨some v⟩).1
      = .ok "Note: Gemini API key should be set via GOOGLE_API_KEY environment variable" ∧
    (gemini_config ⟨some v⟩).2 = [] ∧
    strMentions
      "Note: Gemini API key should be set via GOOGLE_API_KEY environment variable"
      "set via GOOGLE_API_KEY environment variable" = true ∧
    strMentions
      "Note: Gemini API key should be set via GOOGLE_API_KEY environment variable"
      "secret" = false :=
  ⟨rfl, rfl, rfl, by decide, by decide⟩

/-- C6: the supplied max_tokens and temperature values have no effect on a
`gemini_prompt` call: its full observable behaviour (response and subprocess
invocations) equals that of the call with both fields absent. -/
theorem sampling_params_have_no_effect (env : String → Option String)
    (world : Invocation → SpawnOutcome) (p : String) (m : Option String)
    (mt : Option Nat) (t : Option Float) :
    gemini_prompt env world ⟨p, m, mt, t⟩
      = gemini_prompt env world ⟨p, m, none, none⟩ := rfl

/-- C7: when the spawn fails, `run_gemini_command` fails with a `spawnError`,
which is distinct in kind from an `externalToolError`, and even the rendered
error messages the caller sees never coincide, so "could not start" is
distinguishable from "ran and failed". -/
theorem spawn_failure_distinct_from_tool_failure
    (env : String → Option String) (world : Invocation → SpawnOutcome)
    (args : List String) (osErr : String)
    (h : world ⟨"gemini", args, envOverrides env⟩ = .spawnFailed osErr) :
    (run_gemini_command env world args).1
      = .error (.spawnError osErr) ∧
    (∀ s, GeminiError.spawnError osErr ≠ GeminiError.externalToolError s) ∧
    (∀ s, (GeminiError.spawnError osErr).message
        ≠ (GeminiError.externalToolError s).message) := by
  refine ⟨?_, fun s hs => GeminiError.noConfusion hs, fun s hs => ?_⟩
  · simp [run_gemini_command, h]
  · have h3 : some 'F' = some 'G' :=
      congrArg (fun t : String => t.data.head?) hs
    simp at h3

/-- Witness for C7 with a "file not found" spawn failure. -/
theorem spawn_failure_distinct_witness :
    (run_gemini_command (fun _ => none)
        (fun _ => .spawnFailed "No such file or directory (os error 2)")
        ["--prompt", "p"]).1
      = .error (.spawnError "No such file or directory (os error 2)") :=
  (spawn_failure_distinct_from_tool_failure (fun _ => none)
    (fun _ => .spawnFailed "No such file or directory (os error 2)")
    ["--prompt", "p"] "No such file or directory (os error 2)" rfl).1

/-- C8: `gemini_config` always succeeds, spawns no subprocess, and with no
api_key returns the fixed guidance string, which mentions the GOOGLE_API_KEY
environment variable and the --model flag. -/
theorem config_always_succeeds (a : GeminiConfigArgs) :
    (∃ s, (gemini_config a).1 = .ok s) ∧
    (gemini_config a).2 = [] ∧
    (gemini_config ⟨none⟩).1
      = .ok "Gemini CLI configuration:\n- API key: Set via GOOGLE_API_KEY environment variable\n- Model: Use --model flag (default: gemini-2.5-pro)" ∧
    strMentions
      "Gemini CLI configuration:\n- API key: Set via GOOGLE_API_KEY environment variable\n- Model: Use --model flag (default: gemini-2.5-pro)"
      "GOOGLE_API_KEY" = true ∧
    strMentions
      "Gemini CLI configuration:\n- API key: Set via GOOGLE_API_KEY environment variable\n- Model: Use --model flag (default: gemini-2.5-pro)"
      "--model" = true := by
  obtain ⟨k⟩ := a
  cases k <;> exact ⟨⟨_, rfl⟩, rfl, rfl, by decide, by decide⟩

/-- C9: every subprocess invocation of a `gemini_prompt` call carries as
environment overrides exactly the GOOGLE_CLOUD_PROJECT entry when that
variable is set in the adapter's environment and nothing otherwise, and the
overrides depend on nothing else in the environment (in particular not on
GOOGLE_API_KEY, which is never read or forwarded). -/
theorem env_overrides_exactly_gcp
    (env : String → Option String) (world : Invocation → SpawnOutcome)
    (a : GeminiPromptArgs) (inv : Invocation)
    (h : inv ∈ (gemini_prompt env world a).2) :
    inv.env = envOverrides env ∧
    (∀ kv ∈ inv.env, kv.1 = "GOOGLE_CLOUD_PROJECT") ∧
    (∀ p, env "GOOGLE_CLOUD_PROJECT" = some p →
      inv.env = [("GOOGLE_CLOUD_PROJECT", p)]) ∧
    (env "GOOGLE_CLOUD_PROJECT" = none → inv.env = []) ∧
    (∀ env2 : String → Option String,
      env2 "GOOGLE_CLOUD_PROJECT" = env "GOOGLE_CLOUD_PROJECT" →
      envOverrides env2 = envOverrides env) := by
  have h1 := List.mem_singleton.mp h
  subst h1
  refine ⟨rfl, ?_, ?_, ?_, ?_⟩
  · intro kv hkv
    rcases hg : env "GOOGLE_CLOUD_PROJECT" with _ | p <;>
      · revert hkv
        show kv ∈ envOverrides env → _
        simp [envOverrides, hg]
        try exact fun hh => by rw [hh]
  · intro p hp
    show envOverrides env = _
    simp [envOverrides, hp]
  · intro hp
    show envOverrides env = _
    simp [envOverrides, hp]
  · intro env2 he
    simp [envOverrides, he]

/-- Witness for C9 with GOOGLE_CLOUD_PROJECT set to "proj". -/
theorem env_overrides_exactly_gcp_witness :
    (Invocation.mk "gemini" ["--prompt", "p"]
        [("GOOGLE_CLOUD_PROJECT", "proj")]).env
      = envOverrides
          (fun v => if v = "GOOGLE_CLOUD_PROJECT" then some "proj" else none) :=
  (env_overrides_exactly_gcp
    (fun v => if v = "GOOGLE_CLOUD_PROJECT" then some "proj" else none)
    (fun _ => .spawned ⟨some 0, "", ""⟩) ⟨"p", none, none, none⟩
    ⟨"gemini", ["--prompt", "p"], [("GOOGLE_CLOUD_PROJECT", "proj")]⟩
    (by decide)).1

/-- C10: success is determined solely by the exit status: exit code 0
succeeds for every stderr content (the stderr text is discarded), any
non-zero exit code fails for every stdout content, and with empty stderr the
failure message carries empty detail text. -/
theorem exit_status_alone_determines_result
    (env : String → Option String) (args : List String)
    (out err : String) (c : Nat) (hc : c ≠ 0) :
    (run_gemini_command env (fun _ => .spawned ⟨some 0, out, err⟩) args).1
      = .ok (rustTrim out) ∧
    (run_gemini_command env (fun _ => .spawned ⟨some c, out, err⟩) args).1
      = .error (.externalToolError (rustTrim err)) ∧
    (GeminiError.externalToolError (rustTrim "")).message
      = "Gemini command failed: " := by
  have hcc : Output.statusSuccess ⟨some c, out, err⟩ = false := by
    simp [Output.statusSuccess, hc]
  refine ⟨rfl, ?_, by decide⟩
  simp [run_gemini_command, hcc]

/-- Witness for C10: exit 0 with noisy stderr still succeeds. -/
theorem exit_status_alone_determines_result_witness :
    (run_gemini_command (fun _ => none)
        (fun _ => .spawned ⟨some 0, "ok out", "warning: noise\n"⟩) []).1
      = .ok "ok out" :=
  (exit_status_alone_determines_result (fun _ => none) []
    "ok out" "warning: noise\n" 1 (by decide)).1

end GeminiCliMcp
